import Mathlib

/-!
# Ahla Nabta control system — verification of the pricing and financial derivation logic

Shallow embedding of the numeric core of the Ahla Nabta dashboard:
the bidirectional price/margin solver (`src/pages/PriceCalculator.tsx`),
the order financial calculator (`src/pages/Orders.tsx`), the waste
valuation and deduction cascade (`src/hooks/use-data.ts`), the payment
creation on order save (`src/hooks/use-data.ts`), the margin-zone
classifier (`MarginBadge`), and the manual capital ledger (Dashboard).

Numbers are modelled as rationals; the JavaScript rounding helpers
(`Math.round`, `Number.toFixed`) are modelled explicitly where the code
applies them.
-/

namespace AhlaNabta

/-- JS `Math.round`: round to nearest integer, half toward +∞. -/
def jsRound (q : ℚ) : ℤ := ⌊q + 1 / 2⌋

/-- JS `Number.toFixed` rounding: round to nearest, half away from zero. -/
def toFixedRound (q : ℚ) : ℤ := if q < 0 then -⌊-q + 1 / 2⌋ else ⌊q + 1 / 2⌋

/-- `x.toFixed(1)` as a rational (the numeric value of the produced string). -/
def toFixed1 (q : ℚ) : ℚ := (toFixedRound (q * 10) : ℚ) / 10

/-- `x.toFixed(2)` as a rational (the numeric value of the produced string). -/
def toFixed2 (q : ℚ) : ℚ := (toFixedRound (q * 100) : ℚ) / 100

/-- `Math.round(x * 100) / 100`, the 2-decimal rounding used in `use-data.ts`. -/
def round2 (q : ℚ) : ℚ := (jsRound (q * 100) : ℚ) / 100

/-- JS `parseFloat(s) || d` applied to a numeric value: `0` falls back to `d`. -/
def orD (q d : ℚ) : ℚ := if q = 0 then d else q

/-! ## PriceCalculator.tsx — bidirectional pricing solver -/

/-- One row of the pricing table (`interface ProductPricingRow`): the numeric
values of the stored `packSize`, `packPrice`, `profitMargin` strings. -/
structure ProductPricingRow where
  packSize : ℚ
  packPrice : ℚ
  profitMargin : ℚ
deriving DecidableEq, Repr

/-- `getTotalCostPack` (PriceCalculator.tsx line 60):
`costPerUnit * packSize * (1 + oh / 100 + lb / 100)` where `oh`, `lb` are the
ambient overhead/labor percentages, made explicit parameters here. -/
def getTotalCostPack (oh lb costPerUnit packSize : ℚ) : ℚ :=
  costPerUnit * packSize * (1 + oh / 100 + lb / 100)

/-- `priceFromMargin` (spec §4.2, the computation at PriceCalculator.tsx
line 156): `totalCost × (1 + marginPct/100)`. -/
def priceFromMargin (totalCost marginPct : ℚ) : ℚ :=
  totalCost * (1 + marginPct / 100)

/-- `marginFromPrice` (spec §4.2, the computation at PriceCalculator.tsx
line 141): `totalCost > 0 ? ((price − totalCost) / totalCost) × 100 : 0`. -/
def marginFromPrice (totalCost price : ℚ) : ℚ :=
  if 0 < totalCost then ((price - totalCost) / totalCost) * 100 else 0

/-- `handlePackPriceChange` (PriceCalculator.tsx lines 134–146): pack-price
edit recomputes the margin from the current total cost; the stored margin is
the `toFixed(1)` string, the stored price is the raw edited value. -/
def handlePackPriceChange (oh lb costPerUnit : ℚ) (row : ProductPricingRow)
    (newPrice : ℚ) : ProductPricingRow :=
  let size := orD row.packSize 1
  let price := orD newPrice 0
  let totalCost := getTotalCostPack oh lb costPerUnit size
  let margin := if 0 < totalCost then ((price - totalCost) / totalCost) * 100 else 0
  { row with packPrice := newPrice, profitMargin := toFixed1 margin }

/-- `handleMarginChange` (PriceCalculator.tsx lines 149–161): margin edit
recomputes the pack price from the current total cost; the stored price is
the `toFixed(2)` string, the stored margin is the raw edited value. -/
def handleMarginChange (oh lb costPerUnit : ℚ) (row : ProductPricingRow)
    (newMargin : ℚ) : ProductPricingRow :=
  let size := orD row.packSize 1
  let margin := orD newMargin 0
  let totalCost := getTotalCostPack oh lb costPerUnit size
  let price := totalCost * (1 + margin / 100)
  { row with profitMargin := newMargin, packPrice := toFixed2 price }

/-- `handlePackSizeChange` (PriceCalculator.tsx lines 164–176): pack-size
edit recomputes the total cost at the new size and then the pack price,
holding the stored margin fixed. -/
def handlePackSizeChange (oh lb costPerUnit : ℚ) (row : ProductPricingRow)
    (newSize : ℚ) : ProductPricingRow :=
  let size := orD newSize 1
  let margin := orD row.profitMargin 0
  let totalCost := getTotalCostPack oh lb costPerUnit size
  let price := totalCost * (1 + margin / 100)
  { packSize := newSize, profitMargin := row.profitMargin, packPrice := toFixed2 price }

/-! ## MarginBadge — margin-zone classifier -/

/-- Result of `getMarginZone` (source returns the strings
`"green" | "yellow" | "red"`). -/
inductive Zone where
  | green
  | yellow
  | red
deriving DecidableEq, Repr

/-- `getMarginZone` (MarginBadge component): `margin >= 75` is green,
`margin >= 65` is yellow, otherwise red. -/
def getMarginZone (margin : ℚ) : Zone :=
  if margin ≥ 75 then Zone.green
  else if margin ≥ 65 then Zone.yellow
  else Zone.red

/-! ## Orders.tsx — order financial calculator -/

/-- `interface OrderLineItem` (Orders.tsx): the numeric fields used by the
order calculator; the optional package fields are `Option`. -/
structure OrderLineItem where
  quantity : ℚ
  selling_price : ℚ
  cost : ℚ
  package_size : Option ℚ
  num_packages : Option ℚ
deriving DecidableEq, Repr

/-- `itemRevenue` (Orders.tsx lines 199–204): for a supermarket client with a
truthy `num_packages` the price is per pack, otherwise per unit.
JS truthiness of `item.num_packages`: present and non-zero. -/
def itemRevenue (isSupermarket : Bool) (item : OrderLineItem) : ℚ :=
  match item.num_packages with
  | some n => if isSupermarket ∧ n ≠ 0 then item.selling_price * n
              else item.selling_price * item.quantity
  | none => item.selling_price * item.quantity

/-- The record produced by the `calc` memo (Orders.tsx lines 206–216). -/
structure OrderCalc where
  revenue : ℚ
  farmerCost : ℚ
  logistics : ℚ
  totalCost : ℚ
  profit : ℚ
  margin : ℚ
deriving DecidableEq, Repr

/-- `calc` (Orders.tsx lines 206–216; `calc` is a Lean keyword, hence the
name): order-level aggregates from the line items and the parsed
transport/packaging cost inputs. -/
def orderCalc (isSupermarket : Bool) (items : List OrderLineItem)
    (transportCost packagingCost : ℚ) : OrderCalc :=
  let revenue := items.foldl (fun s i => s + itemRevenue isSupermarket i) 0
  let farmerCost := items.foldl (fun s i => s + i.cost * i.quantity) 0
  let tc := orD transportCost 0
  let pc := orD packagingCost 0
  let logistics := tc + pc
  let totalCost := farmerCost + logistics
  let profit := revenue - totalCost
  let margin := if 0 < revenue then profit / revenue * 100 else 0
  { revenue := revenue, farmerCost := farmerCost, logistics := logistics,
    totalCost := totalCost, profit := profit, margin := margin }

/-! ## use-data.ts — order row, payment row, waste cascade -/

/-- The order columns touched by the waste deduction
(`orders.total_revenue`, `orders.net_profit`); modelled as `Option` to
mirror the `(x || 0)` guards in the hook. -/
structure OrderRec where
  total_revenue : Option ℚ
  net_profit : Option ℚ
deriving DecidableEq, Repr

/-- The payment column touched by the waste deduction (`payments.amount`). -/
structure PaymentRec where
  amount : Option ℚ
deriving DecidableEq, Repr

/-- `useDeductWasteFromOrder` (use-data.ts lines 332–371). The order is
fetched with `.single()` (throws when missing → `none`); the payment with
`.maybeSingle()` and the update is guarded by `if (payment)`. Returns the
updated order row and the updated payment row when one was linked. -/
def deductWasteFromOrder (order : Option OrderRec) (payment : Option PaymentRec)
    (wasteValue : ℚ) : Option (OrderRec × Option PaymentRec) :=
  match order with
  | none => none
  | some o =>
    let newRevenue := max 0 (o.total_revenue.getD 0 - wasteValue)
    let newProfit := o.net_profit.getD 0 - wasteValue
    let updated : OrderRec := { total_revenue := some newRevenue, net_profit := some newProfit }
    match payment with
    | some p =>
      let newAmount := max 0 (p.amount.getD 0 - wasteValue)
      some (updated, some { amount := some newAmount })
    | none => some (updated, none)

/-! ## use-data.ts — payment creation on order save -/

/-- The client column read by `useCreateOrder` (`clients.credit_days`,
nullable in the schema). -/
structure ClientRec where
  credit_days : Option ℤ
deriving DecidableEq, Repr

/-- A row inserted into `payments` by `useCreateOrder`; dates are modelled
as absolute day numbers (`Date.setDate` performs calendar-correct
day addition). -/
structure PaymentInsert where
  amount : ℚ
  due_date : ℤ
deriving DecidableEq, Repr

/-- JS `x || d` on a nullable integer: `null`/missing and `0` fall back. -/
def jsOrInt (x : Option ℤ) (d : ℤ) : ℤ :=
  match x with
  | some v => if v = 0 then d else v
  | none => d

/-- The payment-insertion step of `useCreateOrder` (use-data.ts
lines 161–203): the client row is fetched with `.maybeSingle()`,
`creditDays = client.data?.credit_days || 30`, and exactly one payment is
inserted with `amount = orderData.total_revenue` and
`due_date = delivery_date + creditDays`. -/
def createOrderPayments (client : Option ClientRec) (deliveryDate : ℤ)
    (totalRevenue : ℚ) : List PaymentInsert :=
  let creditDays := jsOrInt (client.bind ClientRec.credit_days) 30
  [{ amount := totalRevenue, due_date := deliveryDate + creditDays }]

/-! ## use-data.ts — batch upsert waste valuation -/

/-- The waste fields computed by `useUpsertBatch` (use-data.ts
lines 292–319): `(waste_percentage, waste_value)` as stored. Inputs are
`Option` to mirror the `(x || 0)` guards on the optional insert fields and
on the `prod?.cost_per_unit` lookup. -/
def upsertBatchWaste (damagedQty expiredQty harvestedQty costPerUnit
    packagingCostPerUnit : Option ℚ) : ℚ × ℚ :=
  let wasteQty := damagedQty.getD 0 + expiredQty.getD 0
  let harvested := harvestedQty.getD 0
  let wastePct := if 0 < harvested then wasteQty / harvested * 100 else 0
  let unitCost := costPerUnit.getD 0 + packagingCostPerUnit.getD 0
  let wasteVal := wasteQty * unitCost
  (round2 wastePct, round2 wasteVal)

/-! ## Dashboard — manual capital ledger -/

/-- `CapitalEntry.type` values. -/
inductive TxType where
  | deposit
  | withdrawal
  | initial
deriving DecidableEq, Repr

/-- `interface CapitalEntry` (Dashboard component). -/
structure CapitalEntry where
  id : String
  date : String
  type : TxType
  amount : ℚ
  description : String
deriving DecidableEq, Repr

/-- `handleAddTransaction` (Dashboard): rejects a non-positive amount and a
blank description, otherwise prepends a new entry (`[entry, ...ledger]`)
with the trimmed description. The entry id (`Date.now()`) and date are
environment inputs. -/
def handleAddTransaction (ledger : List CapitalEntry) (id date : String)
    (t : TxType) (amount : ℚ) (description : String) : List CapitalEntry :=
  if amount ≤ 0 then ledger
  else if description.trim = "" then ledger
  else { id := id, date := date, type := t, amount := amount,
         description := description.trim } :: ledger

/-- `deleteEntry` (Dashboard): removes the entry with the given id
(`entries.filter((e) => e.id !== id)`). -/
def deleteEntry (ledger : List CapitalEntry) (id : String) : List CapitalEntry :=
  ledger.filter (fun e => e.id != id)

/-- The user operations exposed on the capital ledger. -/
inductive CapitalOp where
  | add (id date : String) (t : TxType) (amount : ℚ) (description : String)
  | remove (id : String)
deriving DecidableEq, Repr

/-- One user operation on the ledger state. -/
def capitalStep (ledger : List CapitalEntry) (op : CapitalOp) : List CapitalEntry :=
  match op with
  | CapitalOp.add i d t a s => handleAddTransaction ledger i d t a s
  | CapitalOp.remove i => deleteEntry ledger i

/-! ## Helper lemmas -/

/-- A left fold accumulating `s + f i` computes the sum of the mapped list. -/
theorem foldl_add_map {α : Type} (f : α → ℚ) :
    ∀ (l : List α) (a : ℚ), l.foldl (fun s i => s + f i) a = a + (l.map f).sum := by
  intro l
  induction l with
  | nil => intro a; simp
  | cons x xs ih =>
    intro a
    simp only [List.foldl_cons, List.map_cons, List.sum_cons, ih]
    ring

/-! ## Claim theorems -/

/-- C1: a single edit in the bidirectional solver never moves both
`marginPct` and `packSize`: a pack-size edit leaves the stored margin
unchanged and recomputes the pack price from the total cost at the new size
holding that margin fixed, and a pack-price edit leaves the stored pack size
unchanged and recomputes the margin from the current total cost. -/
theorem singleEdit_frame (oh lb cost newSize newPrice : ℚ) (row : ProductPricingRow) :
    (handlePackSizeChange oh lb cost row newSize).profitMargin = row.profitMargin ∧
    (handlePackSizeChange oh lb cost row newSize).packPrice =
      toFixed2 (priceFromMargin (getTotalCostPack oh lb cost (orD newSize 1))
        (orD row.profitMargin 0)) ∧
    (handlePackPriceChange oh lb cost row newPrice).packSize = row.packSize ∧
    (handlePackPriceChange oh lb cost row newPrice).profitMargin =
      toFixed1 (marginFromPrice (getTotalCostPack oh lb cost (orD row.packSize 1))
        (orD newPrice 0)) :=
  ⟨rfl, rfl, rfl, rfl⟩

/-- C2 counterexample: as the solver actually performs the round trip — a
margin edit stores the price as a 2-decimal string, and the following
pack-price edit stores the margin as a 1-decimal string — the recovered
margin is NOT within 0.01 of the original margin for every totalCost > 0:
with cost 0.03, pack size 1 and margin 10 the recovered margin is 0. -/
theorem solver_roundTrip_tolerance_ce :
    ¬ (|(handlePackPriceChange 0 0 (3 / 100)
          (handleMarginChange 0 0 (3 / 100) ⟨1, 0, 0⟩ 10)
          ((handleMarginChange 0 0 (3 / 100) ⟨1, 0, 0⟩ 10).packPrice)).profitMargin
        - 10| ≤ 1 / 100) := by
  norm_num [handlePackPriceChange, handleMarginChange, getTotalCostPack, orD,
    toFixed1, toFixed2, toFixedRound]

/-- C2 amended: the underlying margin-to-price and price-to-margin
computations round-trip exactly (hence within 0.01) for every
totalCost > 0; the 0.01 tolerance fails only because the solver stores the
intermediate price and margin as rounded strings. -/
theorem marginFromPrice_priceFromMargin_roundTrip (totalCost m : ℚ)
    (h : 0 < totalCost) :
    marginFromPrice totalCost (priceFromMargin totalCost m) = m := by
  have h0 : totalCost ≠ 0 := ne_of_gt h
  unfold marginFromPrice priceFromMargin
  rw [if_pos h]
  field_simp
  ring

/-- Witness for the amended C2 round trip at totalCost = 2, m = 7. -/
theorem marginFromPrice_priceFromMargin_roundTrip_witness :
    (0 : ℚ) < 2 ∧ marginFromPrice 2 (priceFromMargin 2 7) = 7 :=
  ⟨by norm_num, marginFromPrice_priceFromMargin_roundTrip 2 7 (by norm_num)⟩

/-- C6: the cost-composition function returns exactly
`baseCostPerUnit × packSize × (1 + overheadPct/100 + laborPct/100)` with no
rounding, and returns 0 when packSize = 0. -/
theorem getTotalCostPack_formula (oh lb cost size : ℚ) :
    getTotalCostPack oh lb cost size = cost * size * (1 + oh / 100 + lb / 100) ∧
    getTotalCostPack oh lb cost 0 = 0 :=
  ⟨rfl, by unfold getTotalCostPack; ring⟩

/-- C7: the margin-zone classifier returns green iff margin ≥ 75, yellow iff
65 ≤ margin < 75, red iff margin < 65, with the boundary examples
75 → green, 74.9 → yellow, 65 → yellow, 64.9 → red. -/
theorem getMarginZone_thresholds (m : ℚ) :
    (getMarginZone m = Zone.green ↔ 75 ≤ m) ∧
    (getMarginZone m = Zone.yellow ↔ 65 ≤ m ∧ m < 75) ∧
    (getMarginZone m = Zone.red ↔ m < 65) ∧
    getMarginZone 75 = Zone.green ∧
    getMarginZone (749 / 10) = Zone.yellow ∧
    getMarginZone 65 = Zone.yellow ∧
    getMarginZone (649 / 10) = Zone.red := by
  unfold getMarginZone
  refine ⟨?_, ?_, ?_, by norm_num, by norm_num, by norm_num, by norm_num⟩ <;>
    · split_ifs with h1 h2 <;> simp_all <;> linarith

/-- C3: order aggregates are the stated sums and differences — per-item
revenue is per-pack for supermarket items with a truthy `num_packages` and
per-unit otherwise, farmer cost is always `cost × quantity`, logistics is
transport + packaging, profit is revenue − totalCost, and margin is
`profit/revenue × 100` for positive revenue and 0 for zero revenue. -/
theorem orderCalc_ok (isSupermarket : Bool) (items : List OrderLineItem)
    (tcost pcost : ℚ) :
    (orderCalc isSupermarket items tcost pcost).revenue =
        (items.map (itemRevenue isSupermarket)).sum ∧
    (orderCalc isSupermarket items tcost pcost).farmerCost =
        (items.map fun i => i.cost * i.quantity).sum ∧
    (orderCalc isSupermarket items tcost pcost).logistics = orD tcost 0 + orD pcost 0 ∧
    (orderCalc isSupermarket items tcost pcost).totalCost =
        (orderCalc isSupermarket items tcost pcost).farmerCost +
          (orderCalc isSupermarket items tcost pcost).logistics ∧
    (orderCalc isSupermarket items tcost pcost).profit =
        (orderCalc isSupermarket items tcost pcost).revenue -
          (orderCalc isSupermarket items tcost pcost).totalCost ∧
    (0 < (orderCalc isSupermarket items tcost pcost).revenue →
      (orderCalc isSupermarket items tcost pcost).margin =
        (orderCalc isSupermarket items tcost pcost).profit /
          (orderCalc isSupermarket items tcost pcost).revenue * 100) ∧
    ((orderCalc isSupermarket items tcost pcost).revenue = 0 →
      (orderCalc isSupermarket items tcost pcost).margin = 0) ∧
    (∀ i ∈ items, ∀ n : ℚ, isSupermarket = true → i.num_packages = some n → n ≠ 0 →
      itemRevenue isSupermarket i = i.selling_price * n) ∧
    (∀ i ∈ items,
      (isSupermarket = false ∨ i.num_packages = none ∨ i.num_packages = some 0) →
      itemRevenue isSupermarket i = i.selling_price * i.quantity) := by
  refine ⟨?_, ?_, rfl, rfl, rfl, ?_, ?_, ?_, ?_⟩
  · show items.foldl (fun s i => s + itemRevenue isSupermarket i) 0 = _
    rw [foldl_add_map, zero_add]
  · show items.foldl (fun s i => s + i.cost * i.quantity) 0 = _
    rw [foldl_add_map (fun i : OrderLineItem => i.cost * i.quantity), zero_add]
  · intro h
    unfold orderCalc at h ⊢
    dsimp only at h ⊢
    rw [if_pos h]
  · intro h
    unfold orderCalc at h ⊢
    dsimp only at h ⊢
    rw [h]
    norm_num
  · intro i _ n hsup hnp hn
    unfold itemRevenue
    rw [hnp]
    simp [hsup, hn]
  · intro i _ hcase
    unfold itemRevenue
    rcases hcase with h | h | h
    · cases hnp : i.num_packages with
      | none => rfl
      | some n => simp [h]
    · rw [h]
    · rw [h]; simp

/-- Witness for C3 at a supermarket order with one per-pack item and one
plain item, transport 5 and packaging 3. -/
theorem orderCalc_ok_witness :
    (0 : ℚ) <
      (orderCalc true [⟨10, 5, 2, some (1 / 2), some 20⟩, ⟨3, 4, 1, none, none⟩] 5 3).revenue ∧
    (orderCalc true [⟨10, 5, 2, some (1 / 2), some 20⟩, ⟨3, 4, 1, none, none⟩] 5 3).margin =
      (orderCalc true [⟨10, 5, 2, some (1 / 2), some 20⟩, ⟨3, 4, 1, none, none⟩] 5 3).profit /
        (orderCalc true [⟨10, 5, 2, some (1 / 2), some 20⟩, ⟨3, 4, 1, none, none⟩] 5 3).revenue * 100 ∧
    itemRevenue true ⟨10, 5, 2, some (1 / 2), some 20⟩ = 5 * 20 := by
  have hpos : (0 : ℚ) <
      (orderCalc true [⟨10, 5, 2, some (1 / 2), some 20⟩, ⟨3, 4, 1, none, none⟩] 5 3).revenue := by
    norm_num [orderCalc, itemRevenue, orD]
  refine ⟨hpos, ?_, ?_⟩
  · exact (orderCalc_ok true [⟨10, 5, 2, some (1 / 2), some 20⟩, ⟨3, 4, 1, none, none⟩]
      5 3).2.2.2.2.2.1 hpos
  · exact (orderCalc_ok true [⟨10, 5, 2, some (1 / 2), some 20⟩, ⟨3, 4, 1, none, none⟩]
      5 3).2.2.2.2.2.2.2.1 ⟨10, 5, 2, some (1 / 2), some 20⟩ (by simp) 20 rfl rfl
      (by norm_num)

/-- C4: for a linked payment and wasteValue > 0, the waste deduction sets
the order revenue to `max 0 (revenue − wasteValue)`, the net profit to
`profit − wasteValue` with no floor, and the payment amount to
`max 0 (amount − wasteValue)`. -/
theorem deductWaste_cascade (o : OrderRec) (p : PaymentRec) (w : ℚ) (_hw : 0 < w) :
    deductWasteFromOrder (some o) (some p) w =
      some ({ total_revenue := some (max 0 (o.total_revenue.getD 0 - w)),
              net_profit := some (o.net_profit.getD 0 - w) },
            some { amount := some (max 0 (p.amount.getD 0 - w)) }) := rfl

/-- Witness for C4 at the spec's example: revenue 1000, profit 100, payment
amount 100, wasteValue 150 — revenue becomes 850, profit −50 (negative),
payment amount 0 (not −50). -/
theorem deductWaste_cascade_witness :
    (0 : ℚ) < 150 ∧
    deductWasteFromOrder (some ⟨some 1000, some 100⟩) (some ⟨some 100⟩) 150 =
      some (⟨some 850, some (-50)⟩, some ⟨some 0⟩) := by
  refine ⟨by norm_num, ?_⟩
  rw [deductWaste_cascade ⟨some 1000, some 100⟩ ⟨some 100⟩ 150 (by norm_num)]
  norm_num

/-- C10: when no payment row is linked to the order, the waste deduction
still updates the order's revenue and profit, skips the payment step, and
completes successfully (it does not fail or roll the order back). -/
theorem deductWaste_noPayment (o : OrderRec) (w : ℚ) :
    deductWasteFromOrder (some o) none w =
      some ({ total_revenue := some (max 0 (o.total_revenue.getD 0 - w)),
              net_profit := some (o.net_profit.getD 0 - w) }, none) := rfl

/-- C5 counterexample: a client with credit_days = 0 does NOT get
`due_date = delivery_date`; the `|| 30` fallback treats 0 as missing, so
delivery day 100 yields due day 130. -/
theorem createOrder_creditDays_zero_ce :
    createOrderPayments (some { credit_days := some 0 }) 100 500 =
      [{ amount := 500, due_date := 130 }] ∧ (130 : ℤ) ≠ 100 := by
  constructor
  · norm_num [createOrderPayments, jsOrInt]
  · norm_num

/-- C5 amended: order creation inserts exactly one payment with
`amount = total_revenue` and `due_date = delivery_date + credit_days`, where
credit_days falls back to 30 when it is null OR 0; in particular any
non-zero credit_days `c` yields `due_date = delivery_date + c`. -/
theorem createOrder_payment_ok (client : Option ClientRec) (delivery : ℤ) (rev : ℚ) :
    (createOrderPayments client delivery rev).length = 1 ∧
    (∀ pay ∈ createOrderPayments client delivery rev,
      pay.amount = rev ∧
      pay.due_date = delivery + jsOrInt (client.bind ClientRec.credit_days) 30) ∧
    (∀ c : ℤ, client.bind ClientRec.credit_days = some c → c ≠ 0 →
      createOrderPayments client delivery rev =
        [{ amount := rev, due_date := delivery + c }]) := by
  refine ⟨rfl, ?_, ?_⟩
  · intro pay hp
    unfold createOrderPayments at hp
    rcases List.mem_singleton.mp hp with rfl
    exact ⟨rfl, rfl⟩
  · intro c hc h0
    unfold createOrderPayments jsOrInt
    rw [hc]
    dsimp only
    rw [if_neg h0]

/-- Witness for the amended C5: credit_days 15 and delivery day 10 yield
one payment due on day 25 (mirroring 2024-01-10 + 15 = 2024-01-25) with
amount 500. -/
theorem createOrder_payment_ok_witness :
    createOrderPayments (some { credit_days := some 15 }) 10 500 =
      [{ amount := 500, due_date := 25 }] := by
  have h := (createOrder_payment_ok (some { credit_days := some 15 }) 10 500).2.2
    15 rfl (by norm_num)
  simpa using h

/-- C8: the stored batch waste percentage is
`(damaged + expired)/harvested × 100` rounded to 2 decimals for
harvested > 0 and 0 for harvested = 0, and the stored waste value is
`(damaged + expired) × (productCost + packagingCost)` rounded to 2
decimals. -/
theorem upsertBatchWaste_ok (d e h c p : Option ℚ) :
    (0 < h.getD 0 →
      (upsertBatchWaste d e h c p).1 =
        round2 ((d.getD 0 + e.getD 0) / h.getD 0 * 100)) ∧
    (h.getD 0 = 0 → (upsertBatchWaste d e h c p).1 = 0) ∧
    (upsertBatchWaste d e h c p).2 =
      round2 ((d.getD 0 + e.getD 0) * (c.getD 0 + p.getD 0)) := by
  refine ⟨?_, ?_, rfl⟩
  · intro hpos
    unfold upsertBatchWaste
    dsimp only
    rw [if_pos hpos]
  · intro hz
    unfold upsertBatchWaste
    dsimp only
    rw [hz]
    norm_num [round2, jsRound]

/-- Witness for C8: damaged 2, expired 3, harvested 10, product cost 4,
packaging cost 1 — percentage branch applies; and harvested 0 yields 0. -/
theorem upsertBatchWaste_ok_witness :
    (upsertBatchWaste (some 2) (some 3) (some 10) (some 4) (some 1)).1 =
      round2 ((2 + 3) / 10 * 100) ∧
    (upsertBatchWaste (some 2) (some 3) (some 0) (some 4) (some 1)).1 = 0 :=
  ⟨(upsertBatchWaste_ok (some 2) (some 3) (some 10) (some 4) (some 1)).1 (by norm_num),
   (upsertBatchWaste_ok (some 2) (some 3) (some 0) (some 4) (some 1)).2.1 rfl⟩

/-- C9 counterexample: the capital ledger is not append-only — the explicit
`deleteEntry` operation removes an already-recorded entry. -/
theorem capital_append_only_ce :
    (⟨"1", "2024-01-01", TxType.deposit, 5, "seed"⟩ : CapitalEntry) ∈
      ([⟨"1", "2024-01-01", TxType.deposit, 5, "seed"⟩] : List CapitalEntry) ∧
    (⟨"1", "2024-01-01", TxType.deposit, 5, "seed"⟩ : CapitalEntry) ∉
      capitalStep [⟨"1", "2024-01-01", TxType.deposit, 5, "seed"⟩]
        (CapitalOp.remove "1") := by
  constructor
  · simp
  · simp [capitalStep, deleteEntry]

/-- C9 amended: entries are never modified and none is created except by an
explicit manual add — after any single operation, every entry in the ledger
is either an unchanged entry of the previous ledger or the exact entry built
by the add operation — but entries CAN be removed by the explicit delete
operation, so the ledger is not append-only. -/
theorem capital_no_mutation (ledger : List CapitalEntry) (op : CapitalOp)
    (x : CapitalEntry) (hx : x ∈ capitalStep ledger op) :
    x ∈ ledger ∨ ∃ i d t a s, op = CapitalOp.add i d t a s ∧
      x = { id := i, date := d, type := t, amount := a, description := s.trim } := by
  cases op with
  | add i d t a s =>
    unfold capitalStep handleAddTransaction at hx
    dsimp only at hx
    split_ifs at hx with h1 h2
    · exact Or.inl hx
    · exact Or.inl hx
    · rcases List.mem_cons.mp hx with h | h
      · exact Or.inr ⟨i, d, t, a, s, rfl, h⟩
      · exact Or.inl h
  | remove i =>
    unfold capitalStep deleteEntry at hx
    exact Or.inl (List.mem_of_mem_filter hx)

/-- Witness for the amended C9: deleting a non-matching id leaves the
recorded entry in the ledger, and it is accounted for as an old entry. -/
theorem capital_no_mutation_witness :
    (⟨"1", "2024-01-01", TxType.deposit, 5, "seed"⟩ : CapitalEntry) ∈
      ([⟨"1", "2024-01-01", TxType.deposit, 5, "seed"⟩] : List CapitalEntry) ∨
    ∃ i d t a s, CapitalOp.remove "2" = CapitalOp.add i d t a s ∧
      (⟨"1", "2024-01-01", TxType.deposit, 5, "seed"⟩ : CapitalEntry) =
        { id := i, date := d, type := t, amount := a, description := s.trim } :=
  capital_no_mutation [⟨"1", "2024-01-01", TxType.deposit, 5, "seed"⟩]
    (CapitalOp.remove "2") ⟨"1", "2024-01-01", TxType.deposit, 5, "seed"⟩
    (by simp [capitalStep, deleteEntry])

end AhlaNabta
